import Mathlib

/-!
Shallow embedding of the Image-Converter web application (src/app.py) and
verification of its specification claims.

The application decodes an uploaded raster image with PIL and converts it to
one of JPEG, PNG, SVG, PDF or DOCX.  Pure conversion logic is embedded as
Lean functions; the HTTP routes are embedded as state-passing functions over
an explicit filesystem model.  Behaviour of the external encoding libraries
(PIL, reportlab, python-docx, svgwrite) that the claims depend on is modelled
from the specification's contracts and marked as such in doc comments.
-/

namespace ImageConv

/-- PIL color modes that occur in this development (`Image.mode`). -/
inductive Mode
  | RGB | RGBA | P | L | LA | CMYK
  deriving DecidableEq, Repr

/-- A decoded in-memory raster image, mirroring the PIL `Image` object used by
`ImageConverter`: dimensions, color mode, a pixel buffer and (for palette
images) a palette.  `px x y` gives up to four channel values; for mode `RGB`
the fourth component is unused, for mode `P` the first component is the
palette index. -/
structure PILImage where
  width : Nat
  height : Nat
  mode : Mode
  px : Nat → Nat → Nat × Nat × Nat × Nat
  palette : Nat → Nat × Nat × Nat

/-- PIL's `MULDIV255` rounding primitive used by `Image.paste` when blending
with a mask: `(a*b + 128 + (a*b + 128)/256) / 256`. -/
def muldiv255 (a b : Nat) : Nat :=
  let t := a * b + 128
  (t + t / 256) / 256

/-- PIL's per-channel blend of background `bg` and source `src` under mask
value `a` (0 = keep background, 255 = take source). -/
def blend (bg src a : Nat) : Nat :=
  muldiv255 bg (255 - a) + muldiv255 src a

/-- The compositing performed by `convert_to_image` for JPEG targets:
`bg = Image.new('RGB', size, (255,255,255)); bg.paste(self.image, mask=...)`.
For an `RGBA` source the mask is the alpha band (`self.image.split()[-1]`),
so each channel is blended against white; for a `P` source no mask is passed,
so the pasted pixels are the palette colors of the source indices. -/
def whiteComposite (im : PILImage) : PILImage :=
  { width := im.width
    height := im.height
    mode := Mode.RGB
    px := fun x y =>
      match im.mode with
      | Mode.RGBA =>
          let p := im.px x y
          (blend 255 p.1 p.2.2.2, blend 255 p.2.1 p.2.2.2, blend 255 p.2.2.1 p.2.2.2, 255)
      | Mode.P =>
          let p := im.palette (im.px x y).1
          (p.1, p.2.1, p.2.2, 255)
      | _ => im.px x y
    palette := im.palette }

/-- Result of `ImageConverter.convert_to_image`'s call to `Image.save`:
either the JPEG branch with its explicit quality and (absent) chroma
subsampling override, or a plain `save(path, format_type)` with the
library defaults. -/
inductive ImgSaveOut
  | jpegOut (img : PILImage) (quality : Nat) (subsampling : Option Nat)
  | plainSave (img : PILImage) (formatType : String)

/-- `ImageConverter.convert_to_image` (src/app.py lines 42-49): if the target
is JPEG and the source mode is RGBA or P, composite onto a white background
and save as JPEG with `quality=95`; otherwise save the image as-is in the
requested format. -/
def convert_to_image (im : PILImage) (formatType : String) : ImgSaveOut :=
  if formatType = "JPEG" ∧ (im.mode = Mode.RGBA ∨ im.mode = Mode.P) then
    ImgSaveOut.jpegOut (whiteComposite im) 95 none
  else
    ImgSaveOut.plainSave im formatType

/-- Big-endian byte expansion of a natural number (4 bytes). -/
def natBytes (n : Nat) : List Nat :=
  [n / 16777216 % 256, n / 65536 % 256, n / 256 % 256, n % 256]

/-- Numeric tag of a color mode, used by the PNG byte model. -/
def modeCode : Mode → Nat
  | Mode.RGB => 0
  | Mode.RGBA => 1
  | Mode.P => 2
  | Mode.L => 3
  | Mode.LA => 4
  | Mode.CMYK => 5

/-- Modelled from the spec: PIL's in-memory PNG encoder
(`self.image.save(buf, format='PNG')`), whose source is external to this
repository.  Per §4.2 PNG encoding is lossless and deterministic, so it is
modelled as a deterministic serialization of the image's dimensions, color
mode and row-major pixel data. -/
def pngEncode (im : PILImage) : List Nat :=
  [137, 80, 78, 71] ++ natBytes im.width ++ natBytes im.height ++ [modeCode im.mode] ++
    (List.range im.height).flatMap (fun y =>
      (List.range im.width).flatMap (fun x =>
        let p := im.px x y
        [p.1 % 256, p.2.1 % 256, p.2.2.1 % 256, p.2.2.2 % 256]))

/-- Modelled from the spec: re-opening the in-memory PNG re-encoding of an
image (`Image.open(buf)` in `convert_to_pdf`).  PNG encoding is lossless
(§4.2), so the reopened image has the same dimensions and content. -/
def pngRoundtrip (im : PILImage) : PILImage := im

/-- The base64 alphabet. -/
def b64Chars : List Char :=
  "ABCDEFGHIJKLMNOPQRSTUVWXYZabcdefghijklmnopqrstuvwxyz0123456789+/".data

/-- Character of the base64 alphabet at index `n`. -/
def b64Char (n : Nat) : Char := b64Chars.getD n 'A'

/-- Standard base64 encoding of a byte list (`base64.b64encode`). -/
def base64Encode : List Nat → List Char
  | [] => []
  | [a] => [b64Char (a / 4), b64Char (a % 4 * 16), '=', '=']
  | [a, b] => [b64Char (a / 4), b64Char (a % 4 * 16 + b / 16), b64Char (b % 16 * 4), '=']
  | a :: b :: c :: rest =>
      b64Char (a / 4) :: b64Char (a % 4 * 16 + b / 16) ::
        b64Char (b % 16 * 4 + c / 64) :: b64Char (c % 64) :: base64Encode rest

/-- One element of the produced SVG document.  `convert_to_svg` only ever adds
`image` elements (`dwg.image(href=..., insert=..., size=...)`). -/
structure SVGImageElem where
  href : String
  insertX : Nat
  insertY : Nat
  w : Nat
  h : Nat
  deriving DecidableEq, Repr

/-- The SVG drawing written by `svgwrite`: canvas size and element list. -/
structure SVGOut where
  canvasW : Nat
  canvasH : Nat
  elements : List SVGImageElem
  deriving DecidableEq, Repr

/-- `ImageConverter.convert_to_svg` (src/app.py lines 52-59): re-encode the
raster as PNG in memory, base64-encode it, and write an SVG drawing sized to
the image containing a single `image` element at `(0, 0)` of the image's size
whose href is a PNG data URI. -/
def convert_to_svg (im : PILImage) : SVGOut :=
  let imgB64 := String.mk (base64Encode (pngEncode im))
  { canvasW := im.width
    canvasH := im.height
    elements := [{ href := "data:image/png;base64," ++ imgB64
                   insertX := 0, insertY := 0
                   w := im.width, h := im.height }] }

/-- The PDF page written by reportlab in `convert_to_pdf`: Letter page size,
the PNG bytes embedded as an inline image, its placement rectangle, and the
creation timestamp that reportlab stamps into the document trailer
(modelled from the spec's §4.2 determinism note and §9 open question). -/
structure PDFOut where
  pageW : ℚ
  pageH : ℚ
  png : List Nat
  x : ℚ
  y : ℚ
  w : ℚ
  h : ℚ
  creationDate : Nat

/-- `ImageConverter.convert_to_pdf` (src/app.py lines 62-74): re-encode as PNG
in memory, reopen it, scale by `min(612/w, 792/h) * 0.8`, and draw the image
centered on a Letter (612×792 point) page.  `t` is the wall-clock time at
which the PDF container's creation date is stamped. -/
def convert_to_pdf (t : Nat) (im : PILImage) : PDFOut :=
  let pilImg := pngRoundtrip im
  let pageW : ℚ := 612
  let pageH : ℚ := 792
  let imgW : ℚ := pilImg.width
  let imgH : ℚ := pilImg.height
  let scale : ℚ := min (pageW / imgW) (pageH / imgH) * 0.8
  let w := imgW * scale
  let h := imgH * scale
  { pageW := pageW, pageH := pageH
    png := pngEncode im
    x := (pageW - w) / 2, y := (pageH - h) / 2
    w := w, h := h
    creationDate := t }

/-- One block of the produced DOCX document: the heading added by
`doc.add_heading` or the picture added by `run.add_picture` (displayed size
in inches). -/
inductive DocxItem
  | heading (text : String) (level : Nat)
  | picture (png : List Nat) (wInches : ℚ) (hInches : ℚ)

/-- The DOCX document written by python-docx: its items in order, and the
timestamp stamped into the container's zip entries on save (modelled from
the spec's §4.2 determinism note and §9 open question). -/
structure DocxOut where
  items : List DocxItem
  zipTime : Nat

/-- `ImageConverter.convert_to_docx` (src/app.py lines 77-93): re-encode as
PNG in memory, add a level-0 heading "Converted Image", then add the picture
with displayed width 6in and proportional height when width > height, and
displayed height 6in and proportional width otherwise.  `t` is the
wall-clock time at which the container is written. -/
def convert_to_docx (t : Nat) (im : PILImage) : DocxOut :=
  let imgW : ℚ := im.width
  let imgH : ℚ := im.height
  let maxW : ℚ := 6
  let wh : ℚ × ℚ :=
    if im.width > im.height then (maxW, imgH / imgW * maxW)
    else (imgW / imgH * maxW, maxW)
  { items := [DocxItem.heading "Converted Image" 0,
              DocxItem.picture (pngEncode im) wh.1 wh.2]
    zipTime := t }

/-- The five conversion targets dispatched by the `/convert` route. -/
inductive Target
  | jpeg | png | svg | pdf | docx
  deriving DecidableEq, Repr

/-- The output produced by a single conversion, tagged by container kind. -/
inductive Output
  | image (o : ImgSaveOut)
  | svg (o : SVGOut)
  | pdf (o : PDFOut)
  | docx (o : DocxOut)

/-- The conversion pipeline run at wall-clock time `t`: the pure content of
the file each `ImageConverter` method writes for target `tgt`.  Only the PDF
and DOCX containers receive the time (their libraries stamp creation
timestamps into the output; modelled from the spec's §9 note). -/
def convertAt (t : Nat) (im : PILImage) : Target → Output
  | Target.jpeg => Output.image (convert_to_image im "JPEG")
  | Target.png => Output.image (convert_to_image im "PNG")
  | Target.svg => Output.svg (convert_to_svg im)
  | Target.pdf => Output.pdf (convert_to_pdf t im)
  | Target.docx => Output.docx (convert_to_docx t im)

/-- A PDF output with its creation timestamp replaced, used to compare PDF
outputs up to container metadata. -/
def pdfStripTime (o : PDFOut) : PDFOut := { o with creationDate := 0 }

/-- A DOCX output with its zip-entry timestamp replaced, used to compare DOCX
outputs up to container metadata. -/
def docxStripTime (o : DocxOut) : DocxOut := { o with zipTime := 0 }

/-! ## Filesystem and route model -/

/-- Content of a stored file: raw uploaded bytes, a completed conversion
output, or a file that was created for writing but whose encoding failed
before completion. -/
inductive FileContent
  | raw (bytes : List Nat)
  | conv (o : Output)
  | truncated

/-- The filesystem visible to the routes: an association of paths to file
contents. -/
def FS := List (String × FileContent)

/-- Look up the content stored at `path`. -/
def fsLookup (path : String) (fs : FS) : Option FileContent :=
  (fs.find? (fun e => e.1 = path)).map (fun e => e.2)

/-- Remove any entry at `path` (`os.remove`, also the truncation step of
creating a file). -/
def fsErase (path : String) (fs : FS) : FS :=
  fs.filter (fun e => ¬ e.1 = path)

/-- Write `c` at `path`, replacing any previous content. -/
def fsWrite (path : String) (c : FileContent) (fs : FS) : FS :=
  (path, c) :: fsErase path fs

/-- ASCII uppercasing of one character (Python `str.upper` on the ASCII
format and extension strings used here). -/
def asciiUpper (c : Char) : Char :=
  if c.isLower then Char.ofNat (c.toNat - 32) else c

/-- ASCII lowercasing of one character (Python `str.lower`). -/
def asciiLower (c : Char) : Char :=
  if c.isUpper then Char.ofNat (c.toNat + 32) else c

/-- `s.upper()`. -/
def strUpper (s : String) : String := String.mk (s.data.map asciiUpper)

/-- `s.lower()`. -/
def strLower (s : String) : String := String.mk (s.data.map asciiLower)

/-- The extension after the last dot of a filename, lowercased:
`filename.rsplit('.', 1)[1].lower()`. -/
def extOf (s : String) : String :=
  strLower (String.mk ((s.data.reverse.takeWhile (fun c => ¬ c = '.')).reverse))

/-- The part of a filename before its last dot (the whole name when there is
no dot): `filename.rsplit('.', 1)[0]`. -/
def stemOf (s : String) : String :=
  match s.data.reverse.dropWhile (fun c => ¬ c = '.') with
  | [] => s
  | _ :: rest => String.mk rest.reverse

/-- `ALLOWED_EXTENSIONS` (src/app.py line 27). -/
def ALLOWED_EXTENSIONS : List String :=
  ["png", "jpg", "jpeg", "gif", "bmp", "tiff", "webp"]

/-- `allowed_file` (src/app.py lines 29-31): `'.' in filename and
filename.rsplit('.', 1)[1].lower() in ALLOWED_EXTENSIONS`. -/
def allowed_file (filename : String) : Bool :=
  '.' ∈ filename.data ∧ extOf filename ∈ ALLOWED_EXTENSIONS

/-- Modelled from the spec: which color modes the external encoder accepts
for a given PIL format string (§4.2: `EncodeError` "when the underlying
encoder rejects the pixel buffer (e.g., unsupported color depth for that
container)").  The JPEG container has no alpha channel or palette; PNG has
no CMYK. -/
def encoderAccepts (formatType : String) (m : Mode) : Bool :=
  if formatType = "JPEG" then m ∈ [Mode.L, Mode.RGB, Mode.CMYK]
  else if formatType = "PNG" then m ∈ [Mode.L, Mode.LA, Mode.P, Mode.RGB, Mode.RGBA]
  else true

/-- The image and format string actually handed to the encoder by an
`Image.save` call of `convert_to_image`. -/
def savedImage : ImgSaveOut → PILImage × String
  | ImgSaveOut.jpegOut i _ _ => (i, "JPEG")
  | ImgSaveOut.plainSave i f => (i, f)

/-- `convert_to_image` run against a destination path.  Modelled from the
spec and PIL's save-to-path behaviour: the destination file is opened
(created/truncated) before the encoder runs, so an encoder rejection raises
after the file exists, leaving a truncated file behind; on success the full
output is written.  Returns the new filesystem and whether the save
succeeded. -/
def convert_to_image_fs (fs : FS) (path : String) (im : PILImage)
    (formatType : String) : FS × Bool :=
  let o := convert_to_image im formatType
  let enc := savedImage o
  if encoderAccepts enc.2 enc.1.mode then
    (fsWrite path (FileContent.conv (Output.image o)) fs, true)
  else
    (fsWrite path FileContent.truncated fs, false)

/-- Responses of the `/upload` route, by branch of `upload_file`. -/
inductive UploadResp
  | noFilePart
  | noFileSelected
  | invalidType
  | invalidImage
  | ok (storedName originalName : String) (w h : Nat) (mode : Mode)
  deriving DecidableEq, Repr

/-- HTTP status code of each `/upload` response. -/
def uploadStatus : UploadResp → Nat
  | UploadResp.noFilePart => 400
  | UploadResp.noFileSelected => 400
  | UploadResp.invalidType => 400
  | UploadResp.invalidImage => 400
  | UploadResp.ok _ _ _ _ _ => 200

/-- An `/upload` request: whether a `file` part is present, its filename and
its bytes. -/
structure UploadReq where
  hasFilePart : Bool
  filename : String
  content : List Nat

/-- `upload_file` (src/app.py lines 102-125).  `decode` is the external PIL
`Image.open` applied to the stored bytes (some decoded image, or failure for
streams that are not a valid raster image); `uuid` is the generated file
stem.  The uploaded bytes are stored first; if decoding fails the stored
file is removed and an error is returned. -/
def upload_file (decode : List Nat → Option PILImage) (uuid : String)
    (fs : FS) (req : UploadReq) : FS × UploadResp :=
  if ¬ req.hasFilePart then (fs, UploadResp.noFilePart)
  else if req.filename = "" then (fs, UploadResp.noFileSelected)
  else if allowed_file req.filename then
    let stored := uuid ++ "." ++ extOf req.filename
    let path := "uploads/" ++ stored
    let fs1 := fsWrite path (FileContent.raw req.content) fs
    match decode req.content with
    | some img =>
        (fs1, UploadResp.ok stored req.filename img.width img.height img.mode)
    | none => (fsErase path fs1, UploadResp.invalidImage)
  else (fs, UploadResp.invalidType)

/-- Responses of the `/convert` route, by branch of `convert_image`. -/
inductive ConvResp
  | missingParams
  | notFound
  | unsupported
  | convFailed
  | ok (downloadUrl outName : String)
  deriving DecidableEq, Repr

/-- HTTP status code of each `/convert` response. -/
def convStatus : ConvResp → Nat
  | ConvResp.missingParams => 400
  | ConvResp.notFound => 404
  | ConvResp.unsupported => 400
  | ConvResp.convFailed => 500
  | ConvResp.ok _ _ => 200

/-- The raw bytes of a stored file, when it holds raw bytes. -/
def rawBytes : FileContent → Option (List Nat)
  | FileContent.raw bs => some bs
  | _ => none

/-- `convert_image` (src/app.py lines 128-157).  `decode` is the external PIL
`Image.open` on the stored source bytes (run by `ImageConverter.__init__`);
`t` is the wall-clock time of the request.  Python's
`if not filename or not fmt` treats absent and empty strings alike. -/
def convert_image (decode : List Nat → Option PILImage) (t : Nat) (fs : FS)
    (filename fmt : Option String) : FS × ConvResp :=
  match filename, fmt with
  | some fn, some fm =>
    if fn = "" ∨ fm = "" then (fs, ConvResp.missingParams)
    else
      let inPath := "uploads/" ++ fn
      match fsLookup inPath fs with
      | none => (fs, ConvResp.notFound)
      | some content =>
        let outName := stemOf fn ++ "." ++ strLower fm
        let outPath := "outputs/" ++ outName
        match (rawBytes content).bind decode with
        | none => (fs, ConvResp.convFailed)
        | some im =>
          let fU := strUpper fm
          if fU = "JPG" ∨ fU = "JPEG" then
            let r := convert_to_image_fs fs outPath im "JPEG"
            if r.2 then (r.1, ConvResp.ok ("/download/" ++ outName) outName)
            else (r.1, ConvResp.convFailed)
          else if fU = "PNG" then
            let r := convert_to_image_fs fs outPath im "PNG"
            if r.2 then (r.1, ConvResp.ok ("/download/" ++ outName) outName)
            else (r.1, ConvResp.convFailed)
          else if fU = "SVG" then
            (fsWrite outPath (FileContent.conv (Output.svg (convert_to_svg im))) fs,
             ConvResp.ok ("/download/" ++ outName) outName)
          else if fU = "PDF" then
            (fsWrite outPath (FileContent.conv (Output.pdf (convert_to_pdf t im))) fs,
             ConvResp.ok ("/download/" ++ outName) outName)
          else if fU = "DOCX" then
            (fsWrite outPath (FileContent.conv (Output.docx (convert_to_docx t im))) fs,
             ConvResp.ok ("/download/" ++ outName) outName)
          else (fs, ConvResp.unsupported)
  | _, _ => (fs, ConvResp.missingParams)

/-- `MAX_CONTENT_LENGTH` (src/app.py line 19). -/
def MAX_CONTENT_LENGTH : Nat := 16 * 1024 * 1024

/-- A top-level response of the upload endpoint: either a status code with an
error message, or a handler response. -/
inductive HttpResp
  | err (status : Nat) (msg : String)
  | upload (r : UploadResp)
  deriving DecidableEq, Repr

/-- `handle_large_file` (src/app.py lines 179-181): the error handler for
`RequestEntityTooLarge`. -/
def handle_large_file : HttpResp :=
  HttpResp.err 413 "File too large. Max 16 MB."

/-- The upload endpoint including the framework's request-size gate.
Modelled from the spec: Flask (external to this repository) raises
`RequestEntityTooLarge` before the handler runs when the request body
exceeds `MAX_CONTENT_LENGTH`, which `handle_large_file` turns into a 413
response; otherwise `upload_file` runs. -/
def handleUpload (decode : List Nat → Option PILImage) (uuid : String)
    (fs : FS) (contentLength : Nat) (req : UploadReq) : FS × HttpResp :=
  if MAX_CONTENT_LENGTH < contentLength then (fs, handle_large_file)
  else
    let r := upload_file decode uuid fs req
    (r.1, HttpResp.upload r.2)

/-! ## Source formats and round-trip model (decode / re-encode / decode) -/

/-- The supported raster source containers (§4.1, `ALLOWED_EXTENSIONS`). -/
inductive SrcFormat
  | png | jpeg | gif | bmp | tiff | webp
  deriving DecidableEq, Repr

/-- The PIL format string of a source container. -/
def fmtName : SrcFormat → String
  | SrcFormat.png => "PNG"
  | SrcFormat.jpeg => "JPEG"
  | SrcFormat.gif => "GIF"
  | SrcFormat.bmp => "BMP"
  | SrcFormat.tiff => "TIFF"
  | SrcFormat.webp => "WEBP"

/-- Modelled from the spec: the color modes each source container can carry,
hence the modes a decode of that container can yield and the modes its
encoder accepts (§4.1 "a colorMode drawn from the source encoding", §4.2
encoder rejection).  JPEG carries no alpha or palette; GIF is palette-based;
WEBP carries RGB/RGBA. -/
def containerModes : SrcFormat → List Mode
  | SrcFormat.png => [Mode.L, Mode.LA, Mode.P, Mode.RGB, Mode.RGBA]
  | SrcFormat.jpeg => [Mode.L, Mode.RGB, Mode.CMYK]
  | SrcFormat.gif => [Mode.P, Mode.L]
  | SrcFormat.bmp => [Mode.L, Mode.P, Mode.RGB]
  | SrcFormat.tiff => [Mode.L, Mode.LA, Mode.P, Mode.RGB, Mode.RGBA, Mode.CMYK]
  | SrcFormat.webp => [Mode.RGB, Mode.RGBA]

/-- An encoded source file: its container format, and the dimensions, color
mode and pixel data it stores. -/
structure SrcFile where
  fmt : SrcFormat
  width : Nat
  height : Nat
  mode : Mode
  px : Nat → Nat → Nat × Nat × Nat × Nat
  palette : Nat → Nat × Nat × Nat

/-- Modelled from the spec: the Format Detector's `decode` (§4.1, PIL
`Image.open`).  Succeeds on a well-formed file (positive dimensions, a mode
the container can carry) and yields a `RasterImage` whose dimensions and
colorMode are drawn from the source encoding. -/
def decodeFile (f : SrcFile) : Option PILImage :=
  if 0 < f.width ∧ 0 < f.height ∧ f.mode ∈ containerModes f.fmt then
    some { width := f.width, height := f.height, mode := f.mode
           px := f.px, palette := f.palette }
  else none

/-- Modelled from the spec: writing the result of an `Image.save` call as a
file of container `fmt` (§4.2).  Fails when the container cannot carry the
saved image's mode; otherwise the container stores the image's dimensions,
mode and pixels. -/
def encodeToFile (o : ImgSaveOut) (fmt : SrcFormat) : Option SrcFile :=
  let enc := savedImage o
  if enc.1.mode ∈ containerModes fmt then
    some { fmt := fmt, width := enc.1.width, height := enc.1.height
           mode := enc.1.mode, px := enc.1.px, palette := enc.1.palette }
  else none

/-- Decode a source file, re-encode the image to the same container via
`convert_to_image`, and decode the result. -/
def roundTrip (f : SrcFile) : Option PILImage :=
  (decodeFile f).bind (fun img =>
    (encodeToFile (convert_to_image img (fmtName f.fmt)) f.fmt).bind decodeFile)

/-- Dimensions and color mode of an image, the data compared by the
round-trip property. -/
def imgSig (im : PILImage) : Nat × Nat × Mode := (im.width, im.height, im.mode)

/-! ## Sample inputs used by witnesses -/

/-- A 2×1 RGBA image whose pixels are fully transparent. -/
def rgbaSample : PILImage :=
  { width := 2, height := 1, mode := Mode.RGBA
    px := fun _ _ => (10, 20, 30, 0), palette := fun _ => (0, 0, 0) }

/-- A 100×50 opaque RGB image. -/
def rgbSample : PILImage :=
  { width := 100, height := 50, mode := Mode.RGB
    px := fun _ _ => (1, 2, 3, 255), palette := fun _ => (0, 0, 0) }

/-- A 400×200 opaque RGB image (the spec's DOCX example). -/
def rgbSample400 : PILImage :=
  { width := 400, height := 200, mode := Mode.RGB
    px := fun _ _ => (1, 2, 3, 255), palette := fun _ => (0, 0, 0) }

/-- A 1×1 grayscale-plus-alpha (`LA`) image; the JPEG container rejects this
mode. -/
def laSample : PILImage :=
  { width := 1, height := 1, mode := Mode.LA
    px := fun _ _ => (7, 8, 0, 0), palette := fun _ => (0, 0, 0) }

/-- A decoder that fails on every byte stream (the behaviour of `Image.open`
on bytes that are not a valid raster image). -/
def decodeNone : List Nat → Option PILImage := fun _ => none

/-- A decoder that yields `laSample` for every byte stream. -/
def decodeLA : List Nat → Option PILImage := fun _ => some laSample

/-- A decoder that yields `rgbSample` for every byte stream. -/
def decodeRGB : List Nat → Option PILImage := fun _ => some rgbSample

/-- A filesystem holding one uploaded source file. -/
def fsUpload : FS := [("uploads/a.png", FileContent.raw [1, 2, 3])]

/-- A well-formed 2×2 RGBA PNG source file. -/
def pngFile : SrcFile :=
  { fmt := SrcFormat.png, width := 2, height := 2, mode := Mode.RGBA
    px := fun _ _ => (9, 9, 9, 128), palette := fun _ => (0, 0, 0) }

/-! ## Helper lemmas -/

/-- Blending any source channel against background 255 under mask 0 gives
255. -/
theorem blend_mask_zero (c : Nat) : blend 255 c 0 = 255 := by
  simp [blend, muldiv255]

/-- Erasing a path that is not present leaves the filesystem unchanged. -/
theorem fsErase_of_lookup_none (path : String) (fs : FS)
    (h : fsLookup path fs = none) : fsErase path fs = fs := by
  induction fs with
  | nil => rfl
  | cons e rest ih =>
    by_cases hp : e.1 = path
    · exact absurd h (by simp [fsLookup, List.find?, hp])
    · have h' : fsLookup path rest = none := by
        simpa [fsLookup, List.find?, hp] using h
      simp [fsErase, List.filter_cons, hp] at ih ⊢
      exact congrArg (e :: ·) (ih h')

/-- Erasing a path immediately after writing it undoes the write up to prior
content at that path. -/
theorem fsErase_fsWrite (path : String) (c : FileContent) (fs : FS) :
    fsErase path (fsWrite path c fs) = fsErase path fs := by
  simp [fsWrite, fsErase, List.filter_cons, List.filter_filter]

/-! ## Claims -/

/-- C1 counterexample: the grayscale-plus-alpha mode LA includes an alpha
channel, yet converting an LA image to JPEG does not composite it onto a
white background at quality 95 — the mode check at src/app.py line 44 only
covers RGBA and P, so the LA image is passed to the encoder unchanged. -/
theorem jpeg_la_not_composited_counterexample :
    laSample.mode = Mode.LA ∧
    convert_to_image laSample "JPEG" = ImgSaveOut.plainSave laSample "JPEG" ∧
    ¬ convert_to_image laSample "JPEG" =
        ImgSaveOut.jpegOut (whiteComposite laSample) 95 none := by
  refine ⟨rfl, rfl, ?_⟩
  intro h
  rw [show convert_to_image laSample "JPEG" = ImgSaveOut.plainSave laSample "JPEG"
    from rfl] at h
  exact ImgSaveOut.noConfusion h

/-- C1 (amended): For every decoded image whose color mode is RGBA (alpha)
or P (palette) — the two modes the code's check covers; alpha-bearing LA is
excluded and passed to the encoder unchanged — converting to JPEG first
composites the image onto an opaque white background of the same dimensions,
using the alpha channel (when present) as the blend mask, so every fully
transparent pixel becomes pure white (255,255,255), and the result is
encoded at JPEG quality 95 with no chroma subsampling override. -/
theorem jpeg_composites_transparent_to_white (im : PILImage)
    (h : im.mode = Mode.RGBA ∨ im.mode = Mode.P) :
    convert_to_image im "JPEG" = ImgSaveOut.jpegOut (whiteComposite im) 95 none ∧
    (whiteComposite im).width = im.width ∧
    (whiteComposite im).height = im.height ∧
    (whiteComposite im).mode = Mode.RGB ∧
    (∀ x y r g b, im.mode = Mode.RGBA → im.px x y = (r, g, b, 0) →
      (whiteComposite im).px x y = (255, 255, 255, 255)) := by
  refine ⟨?_, rfl, rfl, rfl, ?_⟩
  · unfold convert_to_image
    rw [if_pos ⟨rfl, h⟩]
  · intro x y r g b hm hp
    simp [whiteComposite, hm, hp, blend_mask_zero]

/-- Witness for C1 at a concrete fully transparent RGBA image. -/
theorem jpeg_composites_transparent_to_white_witness :
    (rgbaSample.mode = Mode.RGBA ∨ rgbaSample.mode = Mode.P) ∧
    (convert_to_image rgbaSample "JPEG" =
        ImgSaveOut.jpegOut (whiteComposite rgbaSample) 95 none ∧
      (whiteComposite rgbaSample).width = rgbaSample.width ∧
      (whiteComposite rgbaSample).height = rgbaSample.height ∧
      (whiteComposite rgbaSample).mode = Mode.RGB ∧
      (∀ x y r g b, rgbaSample.mode = Mode.RGBA → rgbaSample.px x y = (r, g, b, 0) →
        (whiteComposite rgbaSample).px x y = (255, 255, 255, 255))) :=
  ⟨Or.inl rfl, jpeg_composites_transparent_to_white rgbaSample (Or.inl rfl)⟩

/-- C4: For every decoded image, converting to SVG produces an SVG document
whose canvas size equals the image's pixel dimensions and whose content is
exactly one image element at offset (0,0) with size equal to the image's
dimensions, referencing the image's PNG bytes base64-encoded as a data
URI. -/
theorem svg_wraps_png_data_uri (im : PILImage) :
    (convert_to_svg im).canvasW = im.width ∧
    (convert_to_svg im).canvasH = im.height ∧
    (convert_to_svg im).elements =
      [{ href := "data:image/png;base64," ++ String.mk (base64Encode (pngEncode im))
         insertX := 0, insertY := 0, w := im.width, h := im.height }] :=
  ⟨rfl, rfl, rfl⟩

/-- C10: Every upload request whose body exceeds 16 MB is rejected with HTTP
status 413 and the message "File too large. Max 16 MB.", and no source file
is stored. -/
theorem upload_too_large_rejected (decode : List Nat → Option PILImage)
    (uuid : String) (fs : FS) (contentLength : Nat) (req : UploadReq)
    (h : 16 * 1024 * 1024 < contentLength) :
    handleUpload decode uuid fs contentLength req = (fs, handle_large_file) ∧
    handle_large_file = HttpResp.err 413 "File too large. Max 16 MB." := by
  unfold handleUpload
  rw [if_pos (by exact h)]
  exact ⟨rfl, rfl⟩

/-- Witness for C10 at a concrete 16 MB + 1 byte request. -/
theorem upload_too_large_rejected_witness :
    16 * 1024 * 1024 < 16777217 ∧
    (handleUpload decodeNone "u" [] 16777217 ⟨true, "a.png", []⟩ =
        ([], handle_large_file) ∧
      handle_large_file = HttpResp.err 413 "File too large. Max 16 MB.") :=
  ⟨by norm_num,
   upload_too_large_rejected decodeNone "u" [] 16777217 ⟨true, "a.png", []⟩ (by norm_num)⟩

/-- The layout property claimed for PDF conversion: PNG re-encoding, the
scale factor `min(612/w, 792/h) * 0.8`, centering on the 612×792 Letter
page, and the resulting bounds. -/
def PdfLayoutSpec (t : Nat) (im : PILImage) : Prop :=
  (convert_to_pdf t im).pageW = 612 ∧
  (convert_to_pdf t im).pageH = 792 ∧
  (convert_to_pdf t im).png = pngEncode im ∧
  (convert_to_pdf t im).w =
    (im.width : ℚ) * (min (612 / (im.width : ℚ)) (792 / (im.height : ℚ)) * 0.8) ∧
  (convert_to_pdf t im).h =
    (im.height : ℚ) * (min (612 / (im.width : ℚ)) (792 / (im.height : ℚ)) * 0.8) ∧
  (convert_to_pdf t im).x = (612 - (convert_to_pdf t im).w) / 2 ∧
  (convert_to_pdf t im).y = (792 - (convert_to_pdf t im).h) / 2 ∧
  0 ≤ (convert_to_pdf t im).x ∧ 0 ≤ (convert_to_pdf t im).y ∧
  (convert_to_pdf t im).x + (convert_to_pdf t im).w ≤ 612 ∧
  (convert_to_pdf t im).y + (convert_to_pdf t im).h ≤ 792

/-- C2: For every decoded image of width w and height h, converting to PDF
re-encodes it as PNG in memory, scales it uniformly by
`min(612/w, 792/h) * 0.8`, and places it centered on a single Letter page at
`x = (612 - scaledWidth)/2`, `y = (792 - scaledHeight)/2`, so the drawn
image never exceeds the 612×792-point page bounds. -/
theorem pdf_centered_within_letter_page (t : Nat) (im : PILImage)
    (hw : 0 < im.width) (hh : 0 < im.height) : PdfLayoutSpec t im := by
  have hW : (0 : ℚ) < (im.width : ℚ) := by exact_mod_cast hw
  have hH : (0 : ℚ) < (im.height : ℚ) := by exact_mod_cast hh
  have hbw : (im.width : ℚ) * (min (612 / (im.width : ℚ)) (792 / (im.height : ℚ)) * 0.8) ≤
      612 * 0.8 := by
    have h1 : (im.width : ℚ) * min (612 / (im.width : ℚ)) (792 / (im.height : ℚ)) ≤
        (im.width : ℚ) * (612 / (im.width : ℚ)) :=
      mul_le_mul_of_nonneg_left (min_le_left _ _) hW.le
    have h2 : (im.width : ℚ) * (612 / (im.width : ℚ)) = 612 := by field_simp
    nlinarith [h1, h2]
  have hbh : (im.height : ℚ) * (min (612 / (im.width : ℚ)) (792 / (im.height : ℚ)) * 0.8) ≤
      792 * 0.8 := by
    have h1 : (im.height : ℚ) * min (612 / (im.width : ℚ)) (792 / (im.height : ℚ)) ≤
        (im.height : ℚ) * (792 / (im.height : ℚ)) :=
      mul_le_mul_of_nonneg_left (min_le_right _ _) hH.le
    have h2 : (im.height : ℚ) * (792 / (im.height : ℚ)) = 792 := by field_simp
    nlinarith [h1, h2]
  have hxeq : (convert_to_pdf t im).x =
      (612 - (im.width : ℚ) *
        (min (612 / (im.width : ℚ)) (792 / (im.height : ℚ)) * 0.8)) / 2 := rfl
  have hyeq : (convert_to_pdf t im).y =
      (792 - (im.height : ℚ) *
        (min (612 / (im.width : ℚ)) (792 / (im.height : ℚ)) * 0.8)) / 2 := rfl
  have hweq : (convert_to_pdf t im).w =
      (im.width : ℚ) * (min (612 / (im.width : ℚ)) (792 / (im.height : ℚ)) * 0.8) := rfl
  have hheq : (convert_to_pdf t im).h =
      (im.height : ℚ) * (min (612 / (im.width : ℚ)) (792 / (im.height : ℚ)) * 0.8) := rfl
  refine ⟨rfl, rfl, rfl, rfl, rfl, rfl, rfl, ?_, ?_, ?_, ?_⟩
  · rw [hxeq]; linarith
  · rw [hyeq]; linarith
  · rw [hxeq, hweq]; linarith
  · rw [hyeq, hheq]; linarith

/-- Witness for C2 at a concrete 100×50 image. -/
theorem pdf_centered_within_letter_page_witness : PdfLayoutSpec 0 rgbSample :=
  pdf_centered_within_letter_page 0 rgbSample (by decide) (by decide)

/-- The layout property claimed for DOCX conversion: one heading followed by
one picture whose displayed size follows the 6-inch bounding rule and
preserves the aspect ratio. -/
def DocxLayoutSpec (t : Nat) (im : PILImage) : Prop :=
  ∃ w h : ℚ,
    (convert_to_docx t im).items =
      [DocxItem.heading "Converted Image" 0, DocxItem.picture (pngEncode im) w h] ∧
    (im.height < im.width → w = 6 ∧ h = 6 * ((im.height : ℚ) / (im.width : ℚ))) ∧
    (¬ im.height < im.width → h = 6 ∧ w = 6 * ((im.width : ℚ) / (im.height : ℚ))) ∧
    w * (im.height : ℚ) = h * (im.width : ℚ)

/-- C3: For every decoded image of width w and height h, converting to DOCX
produces a document with one top-level heading "Converted Image" followed by
one embedded picture whose displayed size is width 6in and height
`6 * (h/w)` inches when w > h, and otherwise height 6in and width
`6 * (w/h)` inches. -/
theorem docx_heading_then_bounded_picture (t : Nat) (im : PILImage)
    (hw : 0 < im.width) (hh : 0 < im.height) : DocxLayoutSpec t im := by
  have hW : ((im.width : ℚ)) ≠ 0 := by
    exact_mod_cast Nat.pos_iff_ne_zero.mp hw
  have hH : ((im.height : ℚ)) ≠ 0 := by
    exact_mod_cast Nat.pos_iff_ne_zero.mp hh
  by_cases hc : im.height < im.width
  · refine ⟨6, (im.height : ℚ) / (im.width : ℚ) * 6, ?_, ?_, ?_, ?_⟩
    · simp [convert_to_docx, hc]
    · intro _
      exact ⟨rfl, by ring⟩
    · intro hcc
      exact absurd hc hcc
    · field_simp
      ring
  · refine ⟨(im.width : ℚ) / (im.height : ℚ) * 6, 6, ?_, ?_, ?_, ?_⟩
    · simp [convert_to_docx, hc]
    · intro hcc
      exact absurd hcc hc
    · intro _
      exact ⟨rfl, by ring⟩
    · field_simp
      ring

/-- Witness for C3 at the spec's concrete 400×200 example. -/
theorem docx_heading_then_bounded_picture_witness : DocxLayoutSpec 0 rgbSample400 :=
  docx_heading_then_bounded_picture 0 rgbSample400 (by decide) (by decide)

/-- A concrete upload request carrying bytes that are not a valid image. -/
def uploadReq0 : UploadReq := { hasFilePart := true, filename := "t.png", content := [104, 105] }

/-- C5: For every uploaded byte stream that is not a valid raster image
(decoding fails), upload stores the file, decoding fails with an error
surfaced to the caller as a 400 response, the stored source file is removed,
and no output file is produced (the filesystem is unchanged). -/
theorem upload_invalid_stream_removed (decode : List Nat → Option PILImage)
    (uuid : String) (fs : FS) (req : UploadReq)
    (h1 : req.hasFilePart = true) (h2 : ¬ req.filename = "")
    (h3 : allowed_file req.filename = true)
    (h4 : decode req.content = none)
    (h5 : fsLookup ("uploads/" ++ (uuid ++ "." ++ extOf req.filename)) fs = none) :
    upload_file decode uuid fs req = (fs, UploadResp.invalidImage) ∧
    uploadStatus UploadResp.invalidImage = 400 := by
  refine ⟨?_, rfl⟩
  simp [upload_file, h1, h2, h3, h4, fsErase_fsWrite, fsErase_of_lookup_none _ _ h5]

/-- Witness for C5 at a concrete text-bytes upload named `t.png`. -/
theorem upload_invalid_stream_removed_witness :
    upload_file decodeNone "u" [] uploadReq0 = ([], UploadResp.invalidImage) ∧
    uploadStatus UploadResp.invalidImage = 400 :=
  upload_invalid_stream_removed decodeNone "u" [] uploadReq0 rfl (by decide)
    (by decide) rfl rfl

/-- C6: For every conversion request whose target format string is not one of
JPEG, JPG, PNG, SVG, PDF, DOCX (compared case-insensitively, via upcasing),
the convert operation fails with the 400 "Unsupported format" error and
writes no output file. -/
theorem convert_unsupported_format_rejected (decode : List Nat → Option PILImage)
    (t : Nat) (fs : FS) (fn fm : String) (bs : List Nat) (im : PILImage)
    (h1 : ¬ fn = "") (h2 : ¬ fm = "")
    (h3 : fsLookup ("uploads/" ++ fn) fs = some (FileContent.raw bs))
    (h4 : decode bs = some im)
    (h5 : ¬ strUpper fm ∈ (["JPG", "JPEG", "PNG", "SVG", "PDF", "DOCX"] : List String)) :
    convert_image decode t fs (some fn) (some fm) = (fs, ConvResp.unsupported) ∧
    convStatus ConvResp.unsupported = 400 := by
  refine ⟨?_, rfl⟩
  have n1 : ¬ strUpper fm = "JPG" := fun hc => h5 (by simp [hc])
  have n2 : ¬ strUpper fm = "JPEG" := fun hc => h5 (by simp [hc])
  have n3 : ¬ strUpper fm = "PNG" := fun hc => h5 (by simp [hc])
  have n4 : ¬ strUpper fm = "SVG" := fun hc => h5 (by simp [hc])
  have n5 : ¬ strUpper fm = "PDF" := fun hc => h5 (by simp [hc])
  have n6 : ¬ strUpper fm = "DOCX" := fun hc => h5 (by simp [hc])
  simp [convert_image, h1, h2, h3, h4, rawBytes, n1, n2, n3, n4, n5, n6]

/-- Witness for C6 at a concrete request for target format `webp`. -/
theorem convert_unsupported_format_rejected_witness :
    convert_image decodeRGB 0 fsUpload (some "a.png") (some "webp") =
      (fsUpload, ConvResp.unsupported) ∧
    convStatus ConvResp.unsupported = 400 :=
  convert_unsupported_format_rejected decodeRGB 0 fsUpload "a.png" "webp"
    [1, 2, 3] rgbSample (by decide) (by decide) rfl rfl (by decide)

/-- C7 counterexample: converting the uploaded file `a.png` (which decodes to
a grayscale-plus-alpha image) to JPEG fails — the JPEG encoder rejects mode
LA — yet a truncated output file is left at the served output location
`outputs/a.jpg`, refuting atomic failure. -/
theorem convert_failure_partial_file_counterexample :
    (convert_image decodeLA 0 fsUpload (some "a.png") (some "jpg")).2 =
      ConvResp.convFailed ∧
    fsLookup "outputs/a.jpg"
      (convert_image decodeLA 0 fsUpload (some "a.png") (some "jpg")).1 =
      some FileContent.truncated := by
  exact ⟨rfl, rfl⟩

/-- C7 (amended): when the encoder rejects the image after the output file
has been opened for writing (JPEG target, a mode the JPEG container cannot
carry and that the compositing branch does not handle), the request fails
with the 500 "Conversion failed" response but a truncated output file is
left at the destination path under the output folder; no cleanup or
temporary-then-rename is performed. -/
theorem convert_encoder_failure_leaves_truncated (decode : List Nat → Option PILImage)
    (t : Nat) (fs : FS) (fn fm : String) (bs : List Nat) (im : PILImage)
    (h1 : ¬ fn = "") (h2 : ¬ fm = "")
    (h3 : fsLookup ("uploads/" ++ fn) fs = some (FileContent.raw bs))
    (h4 : decode bs = some im)
    (h5 : strUpper fm = "JPG" ∨ strUpper fm = "JPEG")
    (h6 : encoderAccepts "JPEG" im.mode = false)
    (h7 : ¬ (im.mode = Mode.RGBA ∨ im.mode = Mode.P)) :
    convert_image decode t fs (some fn) (some fm) =
      (fsWrite ("outputs/" ++ (stemOf fn ++ "." ++ strLower fm))
        FileContent.truncated fs,
       ConvResp.convFailed) := by
  have hcond : ¬ ("JPEG" = "JPEG" ∧ (im.mode = Mode.RGBA ∨ im.mode = Mode.P)) :=
    fun hc => h7 hc.2
  have hci : convert_to_image im "JPEG" = ImgSaveOut.plainSave im "JPEG" := by
    unfold convert_to_image
    exact if_neg hcond
  rcases h5 with h5 | h5 <;>
    simp [convert_image, h1, h2, h3, h4, rawBytes, h5,
      convert_to_image_fs, hci, savedImage, h6]

/-- Witness for the amended C7 at the concrete LA-mode upload. -/
theorem convert_encoder_failure_leaves_truncated_witness :
    convert_image decodeLA 0 fsUpload (some "a.png") (some "jpg") =
      (fsWrite "outputs/a.jpg" FileContent.truncated fsUpload,
       ConvResp.convFailed) :=
  convert_encoder_failure_leaves_truncated decodeLA 0 fsUpload "a.png" "jpg"
    [1, 2, 3] laSample (by decide) (by decide) rfl rfl (Or.inl (by decide))
    (by decide) (by decide)

/-- C8: For a fixed input image and target format, conversion output is
byte-for-byte identical across runs except where the target container embeds
wall-clock metadata: JPEG, PNG and SVG outputs do not depend on the request
time at all, and PDF and DOCX outputs at two times agree once their
container timestamps are set aside. -/
theorem conversion_deterministic_up_to_timestamps (t₁ t₂ : Nat) (im : PILImage) :
    (∀ tgt : Target, ¬ tgt = Target.pdf → ¬ tgt = Target.docx →
      convertAt t₁ im tgt = convertAt t₂ im tgt) ∧
    pdfStripTime (convert_to_pdf t₁ im) = pdfStripTime (convert_to_pdf t₂ im) ∧
    docxStripTime (convert_to_docx t₁ im) = docxStripTime (convert_to_docx t₂ im) := by
  refine ⟨?_, rfl, rfl⟩
  intro tgt h1 h2
  cases tgt
  · rfl
  · rfl
  · rfl
  · exact absurd rfl h1
  · exact absurd rfl h2

/-- Witness for C8: the JPEG conversion of a concrete image at two different
request times. -/
theorem conversion_deterministic_up_to_timestamps_witness :
    convertAt 0 rgbSample Target.jpeg = convertAt 1 rgbSample Target.jpeg :=
  (conversion_deterministic_up_to_timestamps 0 1 rgbSample).1 Target.jpeg
    (by decide) (by decide)

/-- The image a well-formed 2×2 RGBA PNG source file decodes to. -/
def pngFileDecoded : PILImage :=
  { width := 2, height := 2, mode := Mode.RGBA
    px := fun _ _ => (9, 9, 9, 128), palette := fun _ => (0, 0, 0) }

/-- C9: For every supported source format, decoding an image, re-encoding to
that same format via `convert_to_image`, and decoding the result yields an
image with identical pixel dimensions and identical color mode. -/
theorem decode_reencode_decode_preserves (f : SrcFile) (img : PILImage)
    (h : decodeFile f = some img) :
    (roundTrip f).map imgSig = some (imgSig img) := by
  unfold decodeFile at h
  split at h
  case isTrue hc =>
    obtain ⟨hw, hh, hm⟩ := hc
    injection h with h
    subst h
    have hdec : decodeFile f = some
        { width := f.width, height := f.height, mode := f.mode
          px := f.px, palette := f.palette } := by
      unfold decodeFile
      rw [if_pos ⟨hw, hh, hm⟩]
    have hne : convert_to_image
        { width := f.width, height := f.height, mode := f.mode
          px := f.px, palette := f.palette } (fmtName f.fmt) =
        ImgSaveOut.plainSave
          { width := f.width, height := f.height, mode := f.mode
            px := f.px, palette := f.palette } (fmtName f.fmt) := by
      unfold convert_to_image
      rw [if_neg]
      rintro ⟨hj, hmode⟩
      cases hf : f.fmt <;> rw [hf] at hj hm
      case jpeg =>
        rcases hmode with h' | h' <;> rw [show f.mode = _ from h'] at hm <;>
          simp [containerModes] at hm
      all_goals simp [fmtName] at hj
    simp [roundTrip, hdec, hne, encodeToFile, savedImage, hm,
      decodeFile, hw, hh, imgSig]
  case isFalse hc => exact Option.noConfusion h

/-- Witness for C9 at a concrete 2×2 RGBA PNG file. -/
theorem decode_reencode_decode_preserves_witness :
    (roundTrip pngFile).map imgSig = some (imgSig pngFileDecoded) :=
  decode_reencode_decode_preserves pngFile pngFileDecoded rfl

end ImageConv
